import Mathlib

/-!
Verification of the media metadata pipeline (`src/main.py`,
class `MediaMetadataManager`) against its natural-language specification.

The development is a shallow embedding of the Python source:

* JSON values (the payloads of the TMDB catalog responses and of the
  persisted cache file `metadata.json`) are modelled by `JVal`.
* Python dictionary / sequence operations used by the source are modelled
  by `pyGetD`, `pyGet0`, `pySubS`, `pySub0`, `pyIn`, `pyIter`, `pySlice`;
  operations that raise in Python return `Except.error` carrying the
  exception class (`PyErr`).
* `_parse_filename` is embedded with the concrete backtracking semantics
  of the three `re.match` patterns of the source (greedy `(.+)` = the
  rightmost split that lets the remainder of the pattern match, `.`
  matching every character except a newline).  `\d` is modelled as the
  ASCII digits and `str.strip` as trimming the ASCII whitespace
  characters; the claims under scrutiny only involve ASCII inputs.
* `_search_tmdb` is embedded as `search_tmdb` over an environment
  (`TmdbEnv`) giving the outcome of the three remote requests the
  function can make (search, detail, poster image); a transport failure
  of a request (including a non-2xx status raised by
  `raise_for_status`) is the `Except.error ()` case of that field.
* `_apply_metadata_to_file` is embedded as `apply_metadata_to_file` over
  a filesystem modelled as `String → Option String` (path to contents,
  `none` = absent) and an environment giving the exit status of the
  ffmpeg subprocess and the bytes it leaves at its output path (ffmpeg
  reads the input file and writes only its output file).
* `_load_metadata` / `_save_metadata` and `scan_directory` are embedded
  over a model of the persisted cache file: `none` = missing file,
  `some none` = present but not valid JSON (json.load raises
  JSONDecodeError), `some (some v)` = parses to the value `v`.
  `json.dump(..., ensure_ascii=False, indent=4)` is emulated by
  `json_dump` (control characters below 0x20 other than tab/newline/CR
  are emitted with `\u00xx`; this is the only approximation and no
  theorem depends on the exact rendering, only on its determinism).
-/

/-- A JSON value, as produced by `response.json()` / `json.load`.
Numbers are modelled as integers; no claim involves non-integral
numeric data. Objects keep insertion order, as Python dicts do. -/
inductive JVal where
  | null
  | bool (b : Bool)
  | num (n : Int)
  | str (s : String)
  | arr (xs : List JVal)
  | obj (fields : List (String × JVal))

/-- Python truthiness of a JSON value (`if x:`). -/
def jTruthy : JVal → Bool
  | .null => false
  | .bool b => b
  | .num n => n != 0
  | .str s => s != ""
  | .arr xs => !xs.isEmpty
  | .obj fs => !fs.isEmpty

/-- The exception classes the embedded code can raise.  `reqError` is
`requests.RequestException` (transport failure or `raise_for_status`
on a non-2xx response); the others are the built-in Python errors. -/
inductive PyErr where
  | reqError
  | keyError
  | typeError
  | attrError
  | indexError
deriving DecidableEq

/-- Lookup in the field list of a JSON object (Python dict lookup;
keys of a parsed JSON object are unique, first match). -/
def objLookup (fields : List (String × JVal)) (k : String) : Option JVal :=
  (fields.find? (fun kv => kv.1 == k)).map (fun kv => kv.2)

/-- `d.get(k, default)`.  On a non-dict receiver Python raises
`AttributeError` (e.g. `[].get`). -/
def pyGetD (v : JVal) (k : String) (dflt : JVal) : Except PyErr JVal :=
  match v with
  | .obj fs => .ok ((objLookup fs k).getD dflt)
  | _ => .error .attrError

/-- `d.get(k)` (default `None`). -/
def pyGet0 (v : JVal) (k : String) : Except PyErr JVal :=
  pyGetD v k .null

/-- `v[k]` with a string key: `KeyError` on a dict without the key,
`TypeError` on sequences (string indices must be integers). -/
def pySubS (v : JVal) (k : String) : Except PyErr JVal :=
  match v with
  | .obj fs =>
    match objLookup fs k with
    | some x => .ok x
    | none => .error .keyError
  | _ => .error .typeError

/-- `v[0]`: first element of a list, first character of a string (as a
one-character string), `KeyError` on a dict (no key `0`), `TypeError`
otherwise. -/
def pySub0 (v : JVal) : Except PyErr JVal :=
  match v with
  | .arr (x :: _) => .ok x
  | .arr [] => .error .indexError
  | .str s =>
    match s.data with
    | c :: _ => .ok (.str (String.mk [c]))
    | [] => .error .indexError
  | .obj _ => .error .keyError
  | _ => .error .typeError

/-- Substring test, for `"k" in some_string`. -/
def strContainsSub (hay sub : String) : Bool :=
  (List.range (hay.data.length + 1)).any (fun i => sub.data.isPrefixOf (hay.data.drop i))

/-- `k in v` for a string key `k`: key test on dicts, membership on
lists, substring test on strings, `TypeError` otherwise. -/
def pyIn (v : JVal) (k : String) : Except PyErr Bool :=
  match v with
  | .obj fs => .ok (fs.any (fun kv => kv.1 == k))
  | .arr xs => .ok (xs.any (fun x => match x with | .str s => s == k | _ => false))
  | .str s => .ok (strContainsSub s k)
  | _ => .error .typeError

/-- `for x in v`: elements of a list, keys of a dict, characters of a
string (as one-character strings), `TypeError` otherwise. -/
def pyIter (v : JVal) : Except PyErr (List JVal) :=
  match v with
  | .arr xs => .ok xs
  | .obj fs => .ok (fs.map (fun kv => JVal.str kv.1))
  | .str s => .ok (s.data.map (fun c => JVal.str (String.mk [c])))
  | _ => .error .typeError

/-- `v[:n]`: prefix of a list or string; `TypeError` otherwise
(dicts are not sliceable). -/
def pySlice (v : JVal) (n : Nat) : Except PyErr JVal :=
  match v with
  | .arr xs => .ok (.arr (xs.take n))
  | .str s => .ok (.str (String.mk (s.data.take n)))
  | _ => .error .typeError

/-- Python `==` between a JSON value and a string literal. -/
def jvalEqStr (v : JVal) (s : String) : Bool :=
  match v with
  | .str t => t == s
  | _ => false

/-- Total object field read with a default, used on the specification
side and for stating what the source's guarded reads produce. -/
def jGetTotal (v : JVal) (k : String) : JVal :=
  match v with
  | .obj fs => (objLookup fs k).getD .null
  | _ => .null

/-- Whether a JSON value is an object. -/
def isObjB : JVal → Bool
  | .obj _ => true
  | _ => false

/-! ### The filename parser (`_parse_filename`, src/main.py lines 100-133) -/

/-- `\d` of the source's patterns (ASCII digits). -/
def isDig (c : Char) : Bool := c.isDigit

/-- Whether a list starts with `\((\d{4})\)` — an opening parenthesis,
four digits and a closing parenthesis; returns the digits. -/
def movie1_suffix : List Char → Option (List Char)
  | p :: d1 :: d2 :: d3 :: d4 :: q :: _ =>
    if p == '(' && isDig d1 && isDig d2 && isDig d3 && isDig d4 && q == ')' then
      some [d1, d2, d3, d4]
    else none
  | _ => none

/-- One candidate split for `re.match(r"(.+)\((\d{4})\).*", s)`: the
first group takes the first `i` characters.  `.` does not match a
newline; the trailing `.*` constrains nothing (`re.match` does not
anchor the end). Returns (group 1, the four year digits). -/
def tryMovie1At (cs : List Char) (i : Nat) : Option (List Char × List Char) :=
  if i != 0 && (cs.take i).all (fun x => x != '\n') then
    match movie1_suffix (cs.drop i) with
    | some y => some (cs.take i, y)
    | none => none
  else none

/-- `re.match(movie_pattern1, s)`: the greedy `(.+)` makes the regex
engine accept the rightmost split whose remainder matches. -/
def match_movie1 (cs : List Char) : Option (List Char × List Char) :=
  (List.range cs.length).reverse.findSome? (tryMovie1At cs)

/-- Whether a list starts with `\.(\d{4})\.` — a period, four digits
and another period; returns the digits. -/
def movie2_suffix : List Char → Option (List Char)
  | p :: d1 :: d2 :: d3 :: d4 :: q :: _ =>
    if p == '.' && isDig d1 && isDig d2 && isDig d3 && isDig d4 && q == '.' then
      some [d1, d2, d3, d4]
    else none
  | _ => none

/-- One candidate split for `re.match(r"(.+)\.(\d{4})\.", s)`: note the
pattern requires a period *after* the four digits. -/
def tryMovie2At (cs : List Char) (i : Nat) : Option (List Char × List Char) :=
  if i != 0 && (cs.take i).all (fun x => x != '\n') then
    match movie2_suffix (cs.drop i) with
    | some y => some (cs.take i, y)
    | none => none
  else none

/-- `re.match(movie_pattern2, s)` with the greedy `(.+)`. -/
def match_movie2 (cs : List Char) : Option (List Char × List Char) :=
  (List.range cs.length).reverse.findSome? (tryMovie2At cs)

/-- One candidate split for `re.match(r"(.+)[sS](\d+)[eE](\d+)", s)`.
After `[sS]`, the greedy `(\d+)` is deterministic because a digit can
never match `[eE]`: it takes the maximal digit run, the next character
must be `e`/`E`, and at least one digit must follow.  Only group 1 is
returned (the season/episode numbers are not used by the source). -/
def tv_marker_ok : List Char → Bool
  | c :: r1 =>
    (c == 's' || c == 'S') &&
    (match r1.dropWhile isDig with
     | e :: d0 :: _ => (r1.takeWhile isDig != []) && (e == 'e' || e == 'E') && isDig d0
     | _ => false)
  | [] => false

def tryTvAt (cs : List Char) (i : Nat) : Option (List Char) :=
  if i != 0 && (cs.take i).all (fun x => x != '\n') && tv_marker_ok (cs.drop i) then
    some (cs.take i)
  else none

/-- `re.match(tv_pattern, s)` with the greedy `(.+)`. -/
def match_tv (cs : List Char) : Option (List Char) :=
  (List.range cs.length).reverse.findSome? (tryTvAt cs)

/-- Python `str.strip()` (whitespace trimmed from both ends). -/
def pystrip (cs : List Char) : List Char :=
  ((cs.dropWhile Char.isWhitespace).reverse.dropWhile Char.isWhitespace).reverse

/-- Python `str.replace(".", " ")`. -/
def dotToSpace (cs : List Char) : List Char :=
  cs.map (fun c => if c = '.' then ' ' else c)

/-- `match.group(1).strip().replace(".", " ")` — the title
normalization the source applies to a matched group (strip first,
then periods to spaces). -/
def norm_title (g : List Char) : String :=
  String.mk (dotToSpace (pystrip g))

/-- `int()` of a run of ASCII digits. -/
def year_of (ds : List Char) : Int :=
  Int.ofNat (ds.foldl (fun a c => a * 10 + (c.toNat - '0'.toNat)) 0)

/-- `_parse_filename(filename)` → `(title, year, type)`.  The three
patterns are tried in source order; the fallback returns the portion
of the stem before the first period (`filename.split('.')[0]`) with
periods replaced by spaces (a no-op on that portion) and no year. -/
def parse_filename (filename : String) : String × Option Int × String :=
  match match_movie1 filename.data with
  | some (g, y) => (norm_title g, some (year_of y), "movie")
  | none =>
    match match_movie2 filename.data with
    | some (g, y) => (norm_title g, some (year_of y), "movie")
    | none =>
      match match_tv filename.data with
      | some g => (norm_title g, none, "tv")
      | none =>
        (String.mk (dotToSpace (filename.data.takeWhile (fun c => c != '.'))), none, "movie")


/-! ### The remote resolver (`_search_tmdb`, src/main.py lines 135-249) -/

mutual
/-- Python `repr` of a JSON value (approximation: the string-escaping
of `repr` is not reproduced; no theorem depends on it). -/
def jvalRepr : JVal → String
  | .null => "None"
  | .bool b => if b then "True" else "False"
  | .num n => toString n
  | .str s => "'" ++ s ++ "'"
  | .arr xs => "[" ++ String.intercalate ", " (jvalReprList xs) ++ "]"
  | .obj fs => "\x7b" ++ String.intercalate ", " (jvalReprObj fs) ++ "\x7d"
def jvalReprList : List JVal → List String
  | [] => []
  | x :: xs => jvalRepr x :: jvalReprList xs
def jvalReprObj : List (String × JVal) → List String
  | [] => []
  | kv :: fs => ("'" ++ kv.1 ++ "': " ++ jvalRepr kv.2) :: jvalReprObj fs
end

/-- Python `str()` of a JSON value (used by the f-strings of the
source); equals `repr` except on strings. -/
def jvalStr : JVal → String
  | .str s => s
  | v => jvalRepr v

/-- The outcomes of the remote requests `_search_tmdb` can make.
`Except.error ()` is a `requests.RequestException` — a transport
failure or the non-2xx status raised by `raise_for_status`. -/
structure TmdbEnv where
  searchResp : Except Unit JVal
  detailsResp : Except Unit JVal
  posterResp : Except Unit Unit

/-- A failed request raises `requests.RequestException`. -/
def liftReq {α : Type} : Except Unit α → Except PyErr α
  | .ok a => .ok a
  | .error _ => .error .reqError

/-- The metadata record the resolver builds (the dict literal at
src/main.py lines 229-242, field for field). -/
structure MetadataRec where
  id : JVal
  title : JVal
  original_title : JVal
  year : String
  overview : JVal
  poster_path : Option String
  genres : List JVal
  rating : JVal
  type : String
  directors : List JVal
  cast : List JVal
  runtime : JVal

/-- Lines 174-187: if `poster_path` of the detail response is truthy,
download the image (raises on transport failure) to the posters
directory keyed by the *search* result's id; otherwise no local
poster.  The file write itself is assumed to succeed. -/
def poster_step (env : TmdbEnv) (postersDir : String) (rid pp : JVal) :
    Except PyErr (Option String) :=
  if jTruthy pp then
    match liftReq env.posterResp with
    | .error e => .error e
    | .ok _ => .ok (some (postersDir ++ "/" ++ jvalStr rid ++ ".jpg"))
  else .ok none

/-- Lines 189-197: the cast loop body over `cast[:5]` — keep the entries
carrying both a `name` and a `character` key.  The membership tests and
the subscripts raise exactly where Python would. -/
def build_cast_list : List JVal → Except PyErr (List JVal)
  | [] => .ok []
  | actor :: rest =>
    match pyIn actor "name" with
    | .error e => .error e
    | .ok hasName =>
      if hasName then
        match pyIn actor "character" with
        | .error e => .error e
        | .ok hasChar =>
          if hasChar then
            match pySubS actor "name" with
            | .error e => .error e
            | .ok n =>
              match pySubS actor "character" with
              | .error e => .error e
              | .ok c =>
                match build_cast_list rest with
                | .error e => .error e
                | .ok tail => .ok (.obj [("name", n), ("character", c)] :: tail)
          else build_cast_list rest
      else build_cast_list rest

/-- Lines 199-204: the crew loop — `person.get("job")` compared against
both `"Director"` and `"Creator"` (for every media type), and
`person["name"]` (which raises `KeyError` when absent) appended on a
match. -/
def build_directors : List JVal → Except PyErr (List JVal)
  | [] => .ok []
  | person :: rest =>
    match pyGet0 person "job" with
    | .error e => .error e
    | .ok job =>
      if jvalEqStr job "Director" || jvalEqStr job "Creator" then
        match pySubS person "name" with
        | .error e => .error e
        | .ok n =>
          match build_directors rest with
          | .error e => .error e
          | .ok tail => .ok (n :: tail)
      else build_directors rest

/-- Lines 206-213: `runtime` — for movies `detailed_info.get("runtime", 0) or 0`;
for series the head of `episode_run_time` when it is a non-empty list,
else `0`. -/
def runtime_step (di : JVal) (mediaType : String) : Except PyErr JVal :=
  if mediaType == "movie" then
    match pyGetD di "runtime" (.num 0) with
    | .error e => .error e
    | .ok rt => .ok (if jTruthy rt then rt else .num 0)
  else
    match pyGetD di "episode_run_time" (.arr []) with
    | .error e => .error e
    | .ok ert =>
      match ert with
      | .arr (x :: _) => .ok x
      | _ => .ok (.num 0)

/-- Python `s.split("-")` (single-character separator; `"".split("-")`
is `[""]`, so the result is never empty). -/
def splitOnDash : List Char → List (List Char)
  | [] => [[]]
  | c :: rest =>
    if c = '-' then [] :: splitOnDash rest
    else
      match splitOnDash rest with
      | [] => [[c]]
      | h :: t => (c :: h) :: t

/-- `detailed_info.get(field, "").split("-")` followed by the
4-character check on the first part (lines 220-226).  `.split` on a
non-string raises `AttributeError`. -/
def year_from_date (di : JVal) (field : String) : Except PyErr String :=
  match pyGetD di field (.str "") with
  | .error e => .error e
  | .ok d =>
    match d with
    | .str s =>
      match splitOnDash s.data with
      | [] => .ok ""
      | p :: _ => .ok (if p.length == 4 then String.mk p else "")
    | _ => .error .attrError

/-- Truthiness of the parsed `year` argument (`Optional[int]`). -/
def yearTruthy : Option Int → Bool
  | none => false
  | some n => n != 0

/-- Lines 215-226: `year_str` — prefer the (truthy) query year, else the
leading 4-character part of the kind-appropriate date field.  The
`elif` conditions short-circuit exactly as in the source. -/
def year_step (di : JVal) (mediaType : String) (year : Option Int) :
    Except PyErr String :=
  if yearTruthy year then .ok (toString (year.getD 0))
  else
    match (if mediaType == "movie" then
             match pyGet0 di "release_date" with
             | .error e => .error e
             | .ok rd => .ok (jTruthy rd)
           else .ok false : Except PyErr Bool) with
    | .error e => .error e
    | .ok movieCond =>
      if movieCond then year_from_date di "release_date"
      else
        match (if mediaType == "tv" then
                 match pyGet0 di "first_air_date" with
                 | .error e => .error e
                 | .ok fad => .ok (jTruthy fad)
               else .ok false : Except PyErr Bool) with
        | .error e => .error e
        | .ok tvCond =>
          if tvCond then year_from_date di "first_air_date" else .ok ""

/-- The `try:` body of `_search_tmdb` (lines 150-245): search request,
first result, detail request, poster download, cast/crew/runtime/year
extraction, record construction.  Every step that can raise is a bind;
the evaluation order is the source's (in the record literal, `id` is
subscripted first and the `genres` comprehension runs after
`overview`). -/
def search_tmdb_body (env : TmdbEnv) (postersDir title : String)
    (year : Option Int) (mediaType : String) : Except PyErr (Option MetadataRec) := do
  let sr ← liftReq env.searchResp
  let results ← pyGetD sr "results" (.arr [])
  if jTruthy results = false then
    Except.ok none
  else do
    let result ← pySub0 results
    let rid ← pySubS result "id"
    let di ← liftReq env.detailsResp
    let pp ← pyGet0 di "poster_path"
    let lpp ← poster_step env postersDir rid pp
    let credits ← pyGetD di "credits" (.obj [])
    let castV ← pyGetD credits "cast" (.arr [])
    let cast5 ← pySlice castV 5
    let castI ← pyIter cast5
    let castL ← build_cast_list castI
    let crewV ← pyGetD credits "crew" (.arr [])
    let crewI ← pyIter crewV
    let dirL ← build_directors crewI
    let rtv ← runtime_step di mediaType
    let ys ← year_step di mediaType year
    let ids ← pySubS di "id"
    let titleV ← pyGetD di (if mediaType == "movie" then "title" else "name") (.str title)
    let origV ← pyGetD di (if mediaType == "movie" then "original_title" else "original_name") (.str "")
    let ovV ← pyGetD di "overview" (.str "")
    let genV ← pyGetD di "genres" (.arr [])
    let genI ← pyIter genV
    let genL ← genI.mapM (fun g => pySubS g "name")
    let ratV ← pyGetD di "vote_average" (.num 0)
    Except.ok (some ⟨ids, titleV, origV, ys, ovV, lpp, genL, ratV, mediaType, dirL, castL, rtv⟩)

/-- `_search_tmdb`: the body wrapped in
`except requests.RequestException: ... return None` — a transport
error is swallowed (resolution fails soft); every other exception
propagates to the caller. -/
def search_tmdb (env : TmdbEnv) (postersDir title : String)
    (year : Option Int) (mediaType : String) : Except PyErr (Option MetadataRec) :=
  match search_tmdb_body env postersDir title year mediaType with
  | .error .reqError => .ok none
  | .error e => .error e
  | .ok r => .ok r

/-! ### The embedder (`_apply_metadata_to_file`, src/main.py lines 251-317) -/

/-- The filesystem: path → contents (`none` = no file at that path). -/
def FS : Type := String → Option String

/-- Write (or remove, with `none`) the file at a path. -/
def fsSet (fs : FS) (p : String) (v : Option String) : FS :=
  fun q => if q = p then v else fs q

/-- `', '.join(xs)` over values taken from a JSON list: every element
must be a string, otherwise Python raises `TypeError`. -/
def pyJoinList : List JVal → Except PyErr (List String)
  | [] => .ok []
  | .str s :: rest =>
    match pyJoinList rest with
    | .error e => .error e
    | .ok t => .ok (s :: t)
  | _ :: _ => .error .typeError

/-- `', '.join(v)` where `v` is a JSON value: joins a list of strings,
the characters of a string, or the keys of a dict; `TypeError`
otherwise. -/
def pyJoinComma (v : JVal) : Except PyErr String :=
  match v with
  | .arr xs =>
    match pyJoinList xs with
    | .error e => .error e
    | .ok parts => .ok (String.intercalate ", " parts)
  | .str s => .ok (String.intercalate ", " (s.data.map (fun c => String.mk [c])))
  | .obj fs => .ok (String.intercalate ", " (fs.map (fun kv => kv.1)))
  | _ => .error .typeError

/-- Lines 261-283: the `-metadata` argument list — title, date, description,
genre (comma-joined), rating (`str()`-ified); then a director entry when
`metadata.get("directors")` is truthy, and an artist entry when at least
one cast member is a dict with a `name` key. -/
def build_metadata_args (meta : JVal) : Except PyErr (List String) :=
  match pyGetD meta "title" (.str "") with
  | .error e => .error e
  | .ok t =>
  match pyGetD meta "year" (.str "") with
  | .error e => .error e
  | .ok yv =>
  match pyGetD meta "overview" (.str "") with
  | .error e => .error e
  | .ok ov =>
  match pyGetD meta "genres" (.arr []) with
  | .error e => .error e
  | .ok gv =>
  match pyJoinComma gv with
  | .error e => .error e
  | .ok gj =>
  match pyGetD meta "rating" (.num 0) with
  | .error e => .error e
  | .ok rv =>
  let base := ["-metadata", "title=" ++ jvalStr t, "-metadata", "date=" ++ jvalStr yv,
               "-metadata", "description=" ++ jvalStr ov, "-metadata", "genre=" ++ gj,
               "-metadata", "rating=" ++ jvalStr rv]
  match pyGet0 meta "directors" with
  | .error e => .error e
  | .ok dv =>
  match (if jTruthy dv then
           match pySubS meta "directors" with
           | .error e => .error e
           | .ok dl =>
             match pyJoinComma dl with
             | .error e => .error e
             | .ok dj => .ok ["-metadata", "director=" ++ dj]
         else .ok [] : Except PyErr (List String)) with
  | .error e => .error e
  | .ok dirArgs =>
  match pyGetD meta "cast" (.arr []) with
  | .error e => .error e
  | .ok cv =>
  match pyIter cv with
  | .error e => .error e
  | .ok actors =>
  let names := actors.foldl (fun acc a =>
    match a with
    | .obj fs => if fs.any (fun kv => kv.1 == "name") then acc ++ [jGetTotal a "name"] else acc
    | _ => acc) []
  match (if names.isEmpty then .ok []
         else
           match pyJoinList names with
           | .error e => .error e
           | .ok parts => .ok ["-metadata", "artist=" ++ String.intercalate ", " parts]
         : Except PyErr (List String)) with
  | .error e => .error e
  | .ok artistArgs => .ok (base ++ dirArgs ++ artistArgs)

/-- Lines 286-300: the full ffmpeg command — input file, the poster as a
second input (with the stream mapping and `attached_pic` disposition)
when `metadata.get("poster_path")` is truthy and the file exists, else
plain stream copy; then the metadata arguments and the output path. -/
def build_ffmpeg_cmd (fs : FS) (filePath : String) (meta : JVal) (tempOut : String) :
    Except PyErr (List String) :=
  match build_metadata_args meta with
  | .error e => .error e
  | .ok margs =>
  match pyGet0 meta "poster_path" with
  | .error e => .error e
  | .ok pv =>
  match (if jTruthy pv then
           match pv with
           | .str p => .ok (if (fs p).isSome then some p else none)
           | _ => .error .typeError
         else .ok none : Except PyErr (Option String)) with
  | .error e => .error e
  | .ok posterUse =>
    let head := ["ffmpeg", "-i", filePath]
    let mid := match posterUse with
      | some p => ["-i", p, "-map", "0", "-map", "1", "-c", "copy", "-disposition:v:1", "attached_pic"]
      | none => ["-c", "copy"]
    .ok (head ++ mid ++ margs ++ [tempOut])

/-- The last path component (`file_path.name` / what follows the last
slash). -/
def lastCompL (cs : List Char) : List Char :=
  cs.foldl (fun acc c => if c = '/' then [] else acc ++ [c]) []

/-- Line 258: `temp_output = Path(tempfile.gettempdir()) / f"temp_{file_path.name}"`. -/
def temp_output_path (tempDir filePath : String) : String :=
  tempDir ++ "/temp_" ++ String.mk (lastCompL filePath.data)

/-- The behavior of the ffmpeg subprocess: its exit status, and the
contents it leaves at its output path (`none` when it creates no
output file).  ffmpeg opens the input file read-only and writes only
the output path given on its command line. -/
structure EmbedEnv where
  returncode : Int
  ffmpegOut : Option String

/-- `_apply_metadata_to_file(file_path, metadata)`: build the command
(any exception while doing so is caught by the `except Exception` and
reported as failure with nothing run), run ffmpeg (which deposits
`env.ffmpegOut` at the temporary output path), and on exit status 0
`os.replace` the original with the temporary output just written (when
ffmpeg created no output file, `os.replace` raises `FileNotFoundError`,
caught by the `except` → failure).  On a non-zero exit status the
function merely returns `False`: nothing deletes the temporary file.
Returns (success, filesystem after the call). -/
def apply_metadata_to_file (env : EmbedEnv) (tempDir : String) (fs : FS)
    (filePath : String) (meta : JVal) : Bool × FS :=
  match build_ffmpeg_cmd fs filePath meta (temp_output_path tempDir filePath) with
  | .error _ => (false, fs)
  | .ok _cmd =>
    if env.returncode = 0 then
      match env.ffmpegOut with
      | some content =>
        (true, fsSet (fsSet (fsSet fs (temp_output_path tempDir filePath) env.ffmpegOut)
          filePath (some content)) (temp_output_path tempDir filePath) none)
      | none => (false, fsSet fs (temp_output_path tempDir filePath) env.ffmpegOut)
    else (false, fsSet fs (temp_output_path tempDir filePath) env.ffmpegOut)

/-! ### The cache (`_load_metadata` / `_save_metadata`, lines 84-98) and
the orchestrator (`scan_directory`, lines 319-361) -/

/-- `_load_metadata`: the persisted index file modelled as
`none` = missing, `some none` = present but `json.load` raises
`JSONDecodeError`, `some (some v)` = parses to `v`.  A missing file
and a parse failure both yield `{}`; any successfully parsed value —
whatever its shape — is returned unchanged. -/
def load_metadata : Option (Option JVal) → JVal
  | none => .obj []
  | some none => .obj []
  | some (some v) => v

/-- Hexadecimal digit, for the `\u00xx` escapes of `json.dump`. -/
def hexDigit (n : Nat) : Char :=
  if n < 10 then Char.ofNat ('0'.toNat + n) else Char.ofNat ('a'.toNat + (n - 10))

/-- One character of a JSON string as `json.dump(..., ensure_ascii=False)`
writes it. -/
def json_quote_char (c : Char) : String :=
  if c = '"' then "\\\""
  else if c = '\\' then "\\\\"
  else if c = '\n' then "\\n"
  else if c = '\t' then "\\t"
  else if c = '\r' then "\\r"
  else if c.toNat < 32 then "\\u00" ++ String.mk [hexDigit (c.toNat / 16), hexDigit (c.toNat % 16)]
  else String.mk [c]

/-- A JSON string literal as `json.dump` writes it. -/
def json_quote (s : String) : String :=
  "\"" ++ String.join (s.data.map json_quote_char) ++ "\""

/-- `4 * lvl` spaces (`indent=4`). -/
def indentStr (lvl : Nat) : String :=
  String.mk (List.replicate (4 * lvl) ' ')

mutual
/-- `json.dump(v, ensure_ascii=False, indent=4)` at nesting level `lvl`:
a deterministic rendering of a JSON value; equal values always produce
byte-identical output. -/
def json_dump_v (lvl : Nat) : JVal → String
  | .null => "null"
  | .bool b => if b then "true" else "false"
  | .num n => toString n
  | .str s => json_quote s
  | .arr xs =>
    match json_dump_list (lvl + 1) xs with
    | [] => "[]"
    | parts => "[\n" ++ indentStr (lvl + 1)
        ++ String.intercalate (",\n" ++ indentStr (lvl + 1)) parts
        ++ "\n" ++ indentStr lvl ++ "]"
  | .obj fs =>
    match json_dump_obj (lvl + 1) fs with
    | [] => "\x7b\x7d"
    | parts => "\x7b\n" ++ indentStr (lvl + 1)
        ++ String.intercalate (",\n" ++ indentStr (lvl + 1)) parts
        ++ "\n" ++ indentStr lvl ++ "\x7d"
def json_dump_list (lvl : Nat) : List JVal → List String
  | [] => []
  | x :: xs => json_dump_v lvl x :: json_dump_list lvl xs
def json_dump_obj (lvl : Nat) : List (String × JVal) → List String
  | [] => []
  | kv :: fs => (json_quote kv.1 ++ ": " ++ json_dump_v lvl kv.2) :: json_dump_obj lvl fs
end

/-- `_save_metadata`: the bytes `json.dump(self.metadata, f,
ensure_ascii=False, indent=4)` writes for an in-memory cache (a dict
from relative path to record, kept in insertion order). -/
def save_metadata_bytes (cache : List (String × JVal)) : String :=
  json_dump_v 0 (JVal.obj cache)

/-- `self.metadata.get(relative_path)` on the in-memory cache. -/
def cache_get (cache : List (String × JVal)) (k : String) : Option JVal :=
  (cache.find? (fun kv => kv.1 == k)).map (fun kv => kv.2)

/-- `self.metadata[relative_path] = metadata`: dict assignment —
an existing key keeps its position, a new key is appended. -/
def cache_put : List (String × JVal) → String → JVal → List (String × JVal)
  | [], k, v => [(k, v)]
  | kv :: rest, k, v =>
    if kv.1 == k then (k, v) :: rest else kv :: cache_put rest k v

/-- Truthiness of `existing_metadata` (`if not existing_metadata:`,
line 343 — `None` and falsy values both count as a miss). -/
def truthyOpt : Option JVal → Bool
  | none => false
  | some v => jTruthy v

/-- The cache-relevant state of a scan: the in-memory cache and the
number of `_search_tmdb` calls made so far. -/
structure ScanSt where
  cache : List (String × JVal)
  lookups : Nat

/-- The per-file loop of `scan_directory` (lines 337-357) over the
already-collected file list.  `resolve` abstracts
`_parse_filename` + `_search_tmdb` for one file (`.error` = an
exception propagating out of `_search_tmdb`, which aborts the scan;
`.ok none` = resolution failed soft; a truthy record is stored).  On a
cache hit nothing is looked up and nothing is stored.  The embedder is
invoked on every file that ends up with a record, but it never touches
the cache, so it does not appear in this state. -/
def scan_files (resolve : String → Except PyErr (Option JVal)) :
    List String → ScanSt → Except PyErr ScanSt
  | [], st => .ok st
  | f :: rest, st =>
    if truthyOpt (cache_get st.cache f) then
      scan_files resolve rest st
    else
      match resolve f with
      | .error e => .error e
      | .ok m =>
        let cache2 := match m with
          | some v => if jTruthy v then cache_put st.cache f v else st.cache
          | none => st.cache
        scan_files resolve rest ⟨cache2, st.lookups + 1⟩

/-! ### Supporting lemmas -/

theorem foldl_lastComp_no_slash (cs : List Char) :
    ∀ acc : List Char, '/' ∉ acc →
      '/' ∉ cs.foldl (fun acc c => if c = '/' then [] else acc ++ [c]) acc := by
  induction cs with
  | nil => intro acc h; simpa using h
  | cons c cs ih =>
    intro acc h
    simp only [List.foldl_cons]
    by_cases hc : c = '/'
    · subst hc
      exact ih [] (by simp)
    · rw [if_neg hc]
      refine ih (acc ++ [c]) ?_
      intro hmem
      rcases List.mem_append.mp hmem with h1 | h1
      · exact h h1
      · simp at h1; exact hc h1.symm

theorem lastCompL_no_slash (cs : List Char) : '/' ∉ lastCompL cs :=
  foldl_lastComp_no_slash cs [] (by simp)

theorem foldl_lastComp_of_no_slash (s : List Char) (h : '/' ∉ s) :
    ∀ acc : List Char,
      s.foldl (fun acc c => if c = '/' then [] else acc ++ [c]) acc = acc ++ s := by
  induction s with
  | nil => intro acc; simp
  | cons c cs ih =>
    intro acc
    have hc : c ≠ '/' := by
      intro hc; exact h (hc ▸ List.mem_cons_self c cs)
    have hcs : '/' ∉ cs := fun hm => h (List.mem_cons_of_mem c hm)
    simp only [List.foldl_cons, if_neg hc]
    rw [ih hcs (acc ++ [c])]
    simp

theorem lastCompL_append_slash (xs s : List Char) (h : '/' ∉ s) :
    lastCompL (xs ++ '/' :: s) = s := by
  unfold lastCompL
  rw [show xs ++ '/' :: s = (xs ++ ['/']) ++ s by simp, List.foldl_append,
    List.foldl_append]
  simp only [List.foldl_cons, List.foldl_nil, if_pos rfl]
  simpa using foldl_lastComp_of_no_slash s h []

/-- The temporary output path in the scratch directory is never the
target path itself: its last path component starts with `temp_`. -/
theorem temp_output_path_ne (tempDir p : String) : temp_output_path tempDir p ≠ p := by
  intro h
  have hdata : (temp_output_path tempDir p).data = p.data := congrArg String.data h
  have hd : (temp_output_path tempDir p).data
      = tempDir.data ++ '/' :: ("temp_".data ++ lastCompL p.data) := by
    unfold temp_output_path
    rw [String.data_append, String.data_append, List.append_assoc]
    rfl
  have hns : '/' ∉ "temp_".data ++ lastCompL p.data := by
    intro hmem
    rcases List.mem_append.mp hmem with h1 | h1
    · simp [String.data] at h1
    · exact lastCompL_no_slash p.data h1
  have hlast : lastCompL p.data = "temp_".data ++ lastCompL p.data := by
    conv_lhs => rw [← hdata, hd]
    rw [lastCompL_append_slash _ _ hns]
  have := congrArg List.length hlast
  simp [String.data] at this
  omega

theorem fsSet_ne (fs : FS) (p q : String) (v : Option String) (h : q ≠ p) :
    fsSet fs p v q = fs q := by
  unfold fsSet
  rw [if_neg h]

theorem fsSet_self (fs : FS) (p : String) (v : Option String) :
    fsSet fs p v p = v := by
  unfold fsSet
  rw [if_pos rfl]

/-! ### Claim C1 -/

/-- C1: if the remux invocation exits with a non-zero status, the embed
operation returns failure and the contents at the target file's
original path are unchanged (in particular the file is neither deleted
nor overwritten): for every ffmpeg behavior, scratch directory,
filesystem, target path and record, a non-zero exit status makes
`_apply_metadata_to_file` return `False` with the original path
mapping to exactly the bytes it held before the call. -/
theorem c1_remux_failure_preserves_original (env : EmbedEnv) (tempDir : String)
    (fs : FS) (filePath : String) (meta : JVal) (h : env.returncode ≠ 0) :
    (apply_metadata_to_file env tempDir fs filePath meta).1 = false ∧
    (apply_metadata_to_file env tempDir fs filePath meta).2 filePath = fs filePath := by
  unfold apply_metadata_to_file
  cases hb : build_ffmpeg_cmd fs filePath meta (temp_output_path tempDir filePath) with
  | error e => exact ⟨rfl, rfl⟩
  | ok cmd =>
    rw [if_neg h]
    exact ⟨rfl, fsSet_ne fs _ filePath env.ffmpegOut
      (fun hq => temp_output_path_ne tempDir filePath hq.symm)⟩

/-- Witness for C1 at a concrete input: exit status 1, a concrete
filesystem holding the original bytes, a concrete record. -/
theorem c1_remux_failure_preserves_original_witness :
    (apply_metadata_to_file ⟨1, some "OUT"⟩ "/tmp" (fun _ => some "ORIG")
        "/media/a.mp4" (.obj [("title", .str "T")])).1 = false ∧
    (apply_metadata_to_file ⟨1, some "OUT"⟩ "/tmp" (fun _ => some "ORIG")
        "/media/a.mp4" (.obj [("title", .str "T")])).2 "/media/a.mp4"
      = (fun _ => some "ORIG" : FS) "/media/a.mp4" :=
  c1_remux_failure_preserves_original ⟨1, some "OUT"⟩ "/tmp" (fun _ => some "ORIG")
    "/media/a.mp4" (.obj [("title", .str "T")]) (by decide)

/-! ### Claim C10 -/

/-- C10 counterexample: with exit status 1 and the tool having written
`"JUNK"` at the temporary output path, the embed call returns failure
and the temporary file is still on disk afterwards — the source never
deletes it (`return False` at line 308 does no cleanup), contradicting
the claim that the temporary output is discarded. -/
theorem c10_counterexample :
    (apply_metadata_to_file ⟨1, some "JUNK"⟩ "/tmp" (fun _ => none)
        "/media/a.mp4" (.obj [("title", .str "T")])).1 = false ∧
    temp_output_path "/tmp" "/media/a.mp4" = "/tmp/temp_a.mp4" ∧
    (apply_metadata_to_file ⟨1, some "JUNK"⟩ "/tmp" (fun _ => none)
        "/media/a.mp4" (.obj [("title", .str "T")])).2 "/tmp/temp_a.mp4" = some "JUNK" := by
  refine ⟨by rfl, by rfl, by rfl⟩

/-- C10 amended: on a non-zero exit status the embed call reports
failure but does not discard the temporary output — after the call the
temporary path holds exactly what the remux tool left there (it is
removed from the scratch location only on success, by the rename).
Hypotheses: the command construction succeeded (so the tool actually
ran) and the exit status is non-zero. -/
theorem c10_temp_file_remains_on_failure (env : EmbedEnv) (tempDir : String)
    (fs : FS) (filePath : String) (meta : JVal) (h : env.returncode ≠ 0)
    (h2 : ∃ c, build_ffmpeg_cmd fs filePath meta (temp_output_path tempDir filePath) = .ok c) :
    (apply_metadata_to_file env tempDir fs filePath meta).1 = false ∧
    (apply_metadata_to_file env tempDir fs filePath meta).2
        (temp_output_path tempDir filePath) = env.ffmpegOut := by
  obtain ⟨c, hb⟩ := h2
  unfold apply_metadata_to_file
  rw [hb, if_neg h]
  exact ⟨rfl, fsSet_self fs _ env.ffmpegOut⟩

/-- Witness for C10's amended theorem at a concrete input. -/
theorem c10_temp_file_remains_on_failure_witness :
    (apply_metadata_to_file ⟨2, some "HALF"⟩ "/scratch" (fun _ => some "ORIG")
        "/media/b.mkv" (.obj [("title", .str "B")])).1 = false ∧
    (apply_metadata_to_file ⟨2, some "HALF"⟩ "/scratch" (fun _ => some "ORIG")
        "/media/b.mkv" (.obj [("title", .str "B")])).2
        (temp_output_path "/scratch" "/media/b.mkv") = some "HALF" :=
  c10_temp_file_remains_on_failure ⟨2, some "HALF"⟩ "/scratch" (fun _ => some "ORIG")
    "/media/b.mkv" (.obj [("title", .str "B")]) (by decide) ⟨_, by rfl⟩

/-! ### Claim C4 -/

/-- When every scanned file hits the cache, the per-file loop changes
nothing: no lookups, cache untouched. -/
theorem scan_files_all_hits (resolve : String → Except PyErr (Option JVal)) :
    ∀ (files : List String) (st : ScanSt),
      (∀ f ∈ files, truthyOpt (cache_get st.cache f) = true) →
      scan_files resolve files st = .ok st := by
  intro files
  induction files with
  | nil => intro st h; rfl
  | cons f rest ih =>
    intro st h
    unfold scan_files
    rw [if_pos (h f (List.mem_cons_self f rest))]
    exact ih st (fun g hg => h g (List.mem_cons_of_mem f hg))

/-- C4: a second run of the orchestrator over an unchanged directory
with an already-populated cache performs zero remote lookups and its
final flush is byte-identical to the first run's.  The first run
flushed the in-memory cache `c1` (bytes `save_metadata_bytes c1`); the
second run loads that file back (`load_metadata` returns the parsed
object unchanged), every file hits the cache (hypothesis: each scanned
file has a truthy entry — every record `_search_tmdb` stores is a
non-empty dict), so the loop makes zero `_search_tmdb` calls, ends
with the same cache, and `_save_metadata` writes the same bytes. -/
theorem c4_second_run_idempotent (resolve : String → Except PyErr (Option JVal))
    (files : List String) (c1 : List (String × JVal))
    (h : ∀ f ∈ files, truthyOpt (cache_get c1 f) = true) :
    load_metadata (some (some (.obj c1))) = .obj c1 ∧
    scan_files resolve files ⟨c1, 0⟩ = .ok ⟨c1, 0⟩ ∧
    ∀ st, scan_files resolve files ⟨c1, 0⟩ = .ok st →
      st.lookups = 0 ∧ save_metadata_bytes st.cache = save_metadata_bytes c1 := by
  have h2 : scan_files resolve files ⟨c1, 0⟩ = .ok ⟨c1, 0⟩ :=
    scan_files_all_hits resolve files ⟨c1, 0⟩ h
  refine ⟨rfl, h2, ?_⟩
  intro st hst
  rw [h2] at hst
  cases hst
  exact ⟨rfl, rfl⟩

/-- Witness for C4: a one-file directory whose cache entry is the kind
of record the resolver stores; the run is a no-op on the cache and
does zero lookups. -/
theorem c4_second_run_idempotent_witness :
    scan_files (fun _ => .ok none) ["a.mp4"] ⟨[("a.mp4", .obj [("id", .num 1)])], 0⟩
      = .ok ⟨[("a.mp4", .obj [("id", .num 1)])], 0⟩ ∧
    load_metadata (some (some (.obj [("a.mp4", .obj [("id", .num 1)])])))
      = .obj [("a.mp4", .obj [("id", .num 1)])] :=
  ⟨(c4_second_run_idempotent (fun _ => .ok none) ["a.mp4"]
      [("a.mp4", .obj [("id", .num 1)])] (by decide)).2.1,
   (c4_second_run_idempotent (fun _ => .ok none) ["a.mp4"]
      [("a.mp4", .obj [("id", .num 1)])] (by decide)).1⟩

/-! ### Claim C9 -/

/-- C9 counterexample: a persisted index whose content is valid JSON
but not a path-to-record mapping — the list `[1]` — is returned by
`_load_metadata` as-is (only `json.JSONDecodeError` is caught), not as
an empty cache: the result is not the empty mapping, and the scan's
very first cache access `self.metadata.get(relative_path)` on it
raises `AttributeError`, so the pipeline does not proceed with an
empty cache as the claim states. -/
theorem c9_counterexample :
    load_metadata (some (some (.arr [.num 1]))) = .arr [.num 1] ∧
    (JVal.arr [.num 1]) ≠ .obj [] ∧
    pyGet0 (.arr [.num 1]) "a.mp4" = .error .attrError :=
  ⟨rfl, fun h => JVal.noConfusion h, rfl⟩

/-- C9 amended: `_load_metadata` returns an empty cache when the index
file is missing and when its content fails JSON parsing (logged), but
content that parses to a value of the wrong shape is returned
unchanged — it is not replaced by an empty cache (and a non-mapping
value makes the pipeline fail later, at the first `.get`). -/
theorem c9_load_missing_or_unparseable_empty :
    load_metadata none = .obj [] ∧
    load_metadata (some none) = .obj [] ∧
    ∀ v : JVal, load_metadata (some (some v)) = v :=
  ⟨rfl, rfl, fun _ => rfl⟩

/-! ### Claims C7 and C8 -/

theorem takeWhile_append_cons {α : Type} (p : α → Bool) (l1 : List α) (x : α) (l2 : List α)
    (h1 : l1.all p = true) (hx : p x = false) :
    (l1 ++ x :: l2).takeWhile p = l1 := by
  induction l1 with
  | nil => simp [List.takeWhile, hx]
  | cons a l ih =>
    simp only [List.all_cons, Bool.and_eq_true] at h1
    simp [List.takeWhile, h1.1, ih h1.2]

theorem dropWhile_append_cons {α : Type} (p : α → Bool) (l1 : List α) (x : α) (l2 : List α)
    (h1 : l1.all p = true) (hx : p x = false) :
    (l1 ++ x :: l2).dropWhile p = x :: l2 := by
  induction l1 with
  | nil => simp [List.dropWhile, hx]
  | cons a l ih =>
    simp only [List.all_cons, Bool.and_eq_true] at h1
    simp [List.dropWhile, h1.1, ih h1.2]

/-- Completeness of the season/episode matcher at a given split: a stem
of the shape `title ++ [sS] ++ digits ++ [eE] ++ digit ++ rest` makes
`tryTvAt` succeed at the end of the title. -/
theorem tryTvAt_at_split (a ds : List Char) (c e d0 : Char) (r : List Char)
    (ha : a ≠ []) (hnl : a.all (fun x => x != '\n') = true)
    (hc : c = 's' ∨ c = 'S') (hds : ds ≠ []) (hdig : ds.all isDig = true)
    (he : e = 'e' ∨ e = 'E') (hd0 : isDig d0 = true) :
    tryTvAt (a ++ c :: (ds ++ e :: d0 :: r)) a.length = some a := by
  have hdrop : (a ++ c :: (ds ++ e :: d0 :: r)).drop a.length = c :: (ds ++ e :: d0 :: r) :=
    List.drop_left a _
  have htake : (a ++ c :: (ds ++ e :: d0 :: r)).take a.length = a :=
    List.take_left a _
  have hne : isDig e = false := by
    rcases he with h | h <;> subst h <;> decide
  have hlen : (a.length != 0) = true := by
    cases a with
    | nil => exact absurd rfl ha
    | cons x xs => simp
  have hcb : (c == 's' || c == 'S') = true := by
    rcases hc with h | h <;> subst h <;> decide
  have heb : (e == 'e' || e == 'E') = true := by
    rcases he with h | h <;> subst h <;> decide
  have hdsb : ((ds ++ e :: d0 :: r).takeWhile isDig != []) = true := by
    rw [takeWhile_append_cons isDig ds e (d0 :: r) hdig hne]
    cases ds with
    | nil => exact absurd rfl hds
    | cons x xs => simp
  have hmark : tv_marker_ok (c :: (ds ++ e :: d0 :: r)) = true := by
    simp only [tv_marker_ok, dropWhile_append_cons isDig ds e (d0 :: r) hdig hne,
      hcb, hdsb, heb, hd0]
    rfl
  unfold tryTvAt
  rw [hdrop, hmark, htake]
  simp [hlen, hnl]

/-- If some split succeeds, the matcher (which scans all splits, the
rightmost first) does not fail. -/
theorem match_tv_ne_none (cs : List Char) (i : Nat) (g : List Char)
    (h : tryTvAt cs i = some g) (hi : i < cs.length) :
    match_tv cs ≠ none := by
  intro hn
  unfold match_tv at hn
  rw [List.findSome?_eq_none_iff] at hn
  have hmem : i ∈ (List.range cs.length).reverse := by
    simp [List.mem_reverse, List.mem_range, hi]
  have := hn i hmem
  rw [h] at this
  cases this

/-- Completeness of the dotted-year matcher at a given split: a stem of
the shape `title ++ "." ++ 4 digits ++ "." ++ rest` makes `tryMovie2At`
succeed at the end of the title. -/
theorem tryMovie2At_at_split (a : List Char) (d1 d2 d3 d4 : Char) (r : List Char)
    (ha : a ≠ []) (hnl : a.all (fun x => x != '\n') = true)
    (h1 : isDig d1 = true) (h2 : isDig d2 = true)
    (h3 : isDig d3 = true) (h4 : isDig d4 = true) :
    tryMovie2At (a ++ '.' :: d1 :: d2 :: d3 :: d4 :: '.' :: r) a.length
      = some (a, [d1, d2, d3, d4]) := by
  have hdrop : (a ++ '.' :: d1 :: d2 :: d3 :: d4 :: '.' :: r).drop a.length
      = '.' :: d1 :: d2 :: d3 :: d4 :: '.' :: r := List.drop_left a _
  have htake : (a ++ '.' :: d1 :: d2 :: d3 :: d4 :: '.' :: r).take a.length = a :=
    List.take_left a _
  have hlen : (a.length != 0) = true := by
    cases a with
    | nil => exact absurd rfl ha
    | cons x xs => simp
  have hsuf : movie2_suffix ('.' :: d1 :: d2 :: d3 :: d4 :: '.' :: r)
      = some [d1, d2, d3, d4] := by
    simp only [movie2_suffix, h1, h2, h3, h4]
    rfl
  unfold tryMovie2At
  rw [hdrop, hsuf, htake]
  simp [hlen, hnl]

theorem match_movie2_ne_none (cs : List Char) (i : Nat) (g : List Char × List Char)
    (h : tryMovie2At cs i = some g) (hi : i < cs.length) :
    match_movie2 cs ≠ none := by
  intro hn
  unfold match_movie2 at hn
  rw [List.findSome?_eq_none_iff] at hn
  have hmem : i ∈ (List.range cs.length).reverse := by
    simp [List.mem_reverse, List.mem_range, hi]
  have := hn i hmem
  rw [h] at this
  cases this

/-- C7 counterexample: the stem `"A (2020) S01E01"` has the shape
`Title.S<NN>E<NN>*` (title portion `"A (2020) "`), yet the parser
returns kind `movie` with year 2020 — the parenthesized-year pattern
is tried first — contradicting the claim that such stems yield
kind series and no year regardless of the title's characters. -/
theorem c7_counterexample :
    parse_filename "A (2020) S01E01" = ("A", some 2020, "movie") := by decide

/-- C7 amended: a stem of the shape `Title S<NN>E<NN>...` (case
insensitive, arbitrary digits) parses to kind series with no year
*provided neither movie pattern matches the stem* — the two movie
patterns are tried first, so a parenthesized 4-digit year or a
period-delimited 4-digit year anywhere before the marker takes
precedence and yields kind movie instead. -/
theorem c7_series_marker_parses_tv (stem : String) (a ds : List Char)
    (c e d0 : Char) (r : List Char)
    (hdecomp : stem.data = a ++ c :: (ds ++ e :: d0 :: r))
    (ha : a ≠ []) (hnl : a.all (fun x => x != '\n') = true)
    (hc : c = 's' ∨ c = 'S') (hds : ds ≠ []) (hdig : ds.all isDig = true)
    (he : e = 'e' ∨ e = 'E') (hd0 : isDig d0 = true)
    (hm1 : match_movie1 stem.data = none) (hm2 : match_movie2 stem.data = none) :
    (parse_filename stem).2.1 = none ∧ (parse_filename stem).2.2 = "tv" := by
  have htv : match_tv stem.data ≠ none := by
    rw [hdecomp]
    refine match_tv_ne_none _ a.length a
      (tryTvAt_at_split a ds c e d0 r ha hnl hc hds hdig he hd0) ?_
    simp
  obtain ⟨g, hg⟩ := Option.ne_none_iff_exists'.mp htv
  unfold parse_filename
  rw [hm1, hm2, hg]
  exact ⟨rfl, rfl⟩

/-- Witness for C7's amended theorem: `"The.Show.S01E02"` decomposed at
its marker; both movie patterns fail on it, and the parser returns
kind series with no year. -/
theorem c7_series_marker_parses_tv_witness :
    (parse_filename "The.Show.S01E02").2.1 = none ∧
    (parse_filename "The.Show.S01E02").2.2 = "tv" :=
  c7_series_marker_parses_tv "The.Show.S01E02"
    ['T', 'h', 'e', '.', 'S', 'h', 'o', 'w', '.'] ['0', '1'] 'S' 'E' '0' ['2']
    (by decide) (by decide) (by decide) (Or.inr rfl) (by decide) (by decide)
    (Or.inr rfl) (by decide) (by decide) (by decide)

/-- C8 counterexample: `"Dune.2021"` is a stem consisting of a title
followed by a period-delimited 4-digit year as its final dot-separated
component, yet the parser returns no year (the second movie pattern
demands a period *after* the digits, so the stem falls through to the
fallback).  And on `"A. .2020.x"` the title is normalized to `"A "` —
stripping happens before periods become spaces, so the result carries
surrounding whitespace, against the claim's normalization. -/
theorem c8_counterexample :
    parse_filename "Dune.2021" = ("Dune", none, "movie") ∧
    parse_filename "A. .2020.x" = ("A ", some 2020, "movie") := by decide

/-- C8 amended: a period-delimited 4-digit year yields kind movie with
a year only when a further period follows the year (and no
parenthesized-year pattern matches first); the title is the matched
group stripped and *then* periods-to-spaces.  When the 4-digit year is
the stem's final dot-separated component (no trailing period), no
pattern matches it and the parser falls back to kind movie, no year,
title = the portion before the first period. -/
theorem c8_dotted_year_parse :
    (∀ (stem : String) (a : List Char) (d1 d2 d3 d4 : Char) (r : List Char),
      stem.data = a ++ '.' :: d1 :: d2 :: d3 :: d4 :: '.' :: r →
      a ≠ [] → a.all (fun x => x != '\n') = true →
      isDig d1 = true → isDig d2 = true → isDig d3 = true → isDig d4 = true →
      match_movie1 stem.data = none →
      (parse_filename stem).2.2 = "movie" ∧ (parse_filename stem).2.1.isSome = true) ∧
    (∀ (stem : String) (g y : List Char),
      match_movie1 stem.data = none → match_movie2 stem.data = some (g, y) →
      parse_filename stem = (norm_title g, some (year_of y), "movie")) ∧
    (∀ (stem : String) (a : List Char) (d1 d2 d3 d4 : Char),
      stem.data = a ++ '.' :: [d1, d2, d3, d4] →
      isDig d1 = true → isDig d2 = true → isDig d3 = true → isDig d4 = true →
      match_movie1 stem.data = none → match_movie2 stem.data = none →
      match_tv stem.data = none →
      parse_filename stem
        = (String.mk (dotToSpace (stem.data.takeWhile (fun c => c != '.'))), none, "movie")) := by
  refine ⟨?_, ?_, ?_⟩
  · intro stem a d1 d2 d3 d4 r hdecomp ha hnl h1 h2 h3 h4 hm1
    have hm2 : match_movie2 stem.data ≠ none := by
      rw [hdecomp]
      refine match_movie2_ne_none _ a.length (a, [d1, d2, d3, d4])
        (tryMovie2At_at_split a d1 d2 d3 d4 r ha hnl h1 h2 h3 h4) ?_
      simp
    obtain ⟨gy, hgy⟩ := Option.ne_none_iff_exists'.mp hm2
    obtain ⟨g, y⟩ := gy
    unfold parse_filename
    rw [hm1, hgy]
    exact ⟨rfl, rfl⟩
  · intro stem g y hm1 hm2
    unfold parse_filename
    rw [hm1, hm2]
  · intro stem a d1 d2 d3 d4 hdecomp h1 h2 h3 h4 hm1 hm2 htv
    unfold parse_filename
    rw [hm1, hm2, htv]

/-- Witness for C8's amended theorem: `"My.Movie.2020.x"` (year
followed by a period) parses to movie/2020 via the second pattern;
`"Dune.2021"` (year final) falls back to movie with no year. -/
theorem c8_dotted_year_parse_witness :
    parse_filename "My.Movie.2020.x"
      = (norm_title ['M', 'y', '.', 'M', 'o', 'v', 'i', 'e'],
         some (year_of ['2', '0', '2', '0']), "movie") ∧
    parse_filename "Dune.2021"
      = (String.mk (dotToSpace ("Dune.2021".data.takeWhile (fun c => c != '.'))),
         none, "movie") :=
  ⟨c8_dotted_year_parse.2.1 "My.Movie.2020.x"
      ['M', 'y', '.', 'M', 'o', 'v', 'i', 'e'] ['2', '0', '2', '0']
      (by decide) (by decide),
   c8_dotted_year_parse.2.2 "Dune.2021" ['D', 'u', 'n', 'e'] '2' '0' '2' '1'
      (by decide) (by decide) (by decide) (by decide) (by decide)
      (by decide) (by decide) (by decide)⟩

/-! ### Claims C2, C3, C5, C6 -/

theorem except_bind_ok {ε α β : Type} (a : α) (k : α → Except ε β) :
    (Except.ok a >>= k : Except ε β) = k a := rfl

theorem except_bind_err {ε α β : Type} (e : ε) (k : α → Except ε β) :
    ((Except.error e : Except ε α) >>= k) = .error e := rfl

/-- Whether an object carries a key (`"k" in d` for a dict). -/
def hasKeyB (v : JVal) (k : String) : Bool :=
  match v with
  | .obj fs => fs.any (fun kv => kv.1 == k)
  | _ => false

/-- A cast entry carrying both a `name` and a `character` field. -/
def cast_has_both (a : JVal) : Bool :=
  hasKeyB a "name" && hasKeyB a "character"

/-- The pair the source builds from a kept cast entry. -/
def cast_entry_of (a : JVal) : JVal :=
  .obj [("name", jGetTotal a "name"), ("character", jGetTotal a "character")]

theorem objLookup_isSome_of_any (fs : List (String × JVal)) (k : String)
    (h : fs.any (fun kv => kv.1 == k) = true) : ∃ x, objLookup fs k = some x := by
  have h2 : (fs.find? (fun kv => kv.1 == k)).isSome = true := by
    rw [List.find?_isSome]
    exact List.any_eq_true.mp h
  obtain ⟨kv, hkv⟩ := Option.isSome_iff_exists.mp h2
  exact ⟨kv.2, by simp [objLookup, hkv]⟩

/-- What the source's cast loop computes on a list of dict entries:
the kept entries are the `filter` of the *already capped* input. -/
theorem build_cast_list_eq : ∀ (l : List JVal), (∀ a ∈ l, isObjB a = true) →
    build_cast_list l = .ok ((l.filter cast_has_both).map cast_entry_of) := by
  intro l
  induction l with
  | nil => intro _; rfl
  | cons a rest ih =>
    intro h
    have ha := h a (List.mem_cons_self a rest)
    have hrest := ih (fun b hb => h b (List.mem_cons_of_mem a hb))
    cases a with
    | obj fs =>
      by_cases hn : fs.any (fun kv => kv.1 == "name") = true
      · by_cases hc : fs.any (fun kv => kv.1 == "character") = true
        · obtain ⟨x, hx⟩ := objLookup_isSome_of_any fs "name" hn
          obtain ⟨z, hz⟩ := objLookup_isSome_of_any fs "character" hc
          simp [build_cast_list, pyIn, hn, hc, pySubS, hx, hz, hrest,
            List.filter_cons, cast_has_both, hasKeyB, cast_entry_of, jGetTotal]
        · simp [build_cast_list, pyIn, hn, hc, hrest, List.filter_cons,
            cast_has_both, hasKeyB]
      · simp [build_cast_list, pyIn, hn, hrest, List.filter_cons,
          cast_has_both, hasKeyB]
    | null => simp [isObjB] at ha
    | bool b => simp [isObjB] at ha
    | num n => simp [isObjB] at ha
    | str s => simp [isObjB] at ha
    | arr xs => simp [isObjB] at ha

/-- The crew condition the source tests: `person.get("job")` equal to
`"Director"` *or* `"Creator"` — for every media type. -/
def dir_matches (p : JVal) : Bool :=
  jvalEqStr (jGetTotal p "job") "Director" || jvalEqStr (jGetTotal p "job") "Creator"

/-- `person["name"]` of a kept crew entry. -/
def dir_name_of (p : JVal) : JVal := jGetTotal p "name"

/-- What the source's crew loop computes on a list of dict entries each
of whose matching members carries a `name`. -/
theorem build_directors_eq : ∀ (l : List JVal), (∀ p ∈ l, isObjB p = true) →
    (∀ p ∈ l, dir_matches p = true → hasKeyB p "name" = true) →
    build_directors l = .ok ((l.filter dir_matches).map dir_name_of) := by
  intro l
  induction l with
  | nil => intro _ _; rfl
  | cons a rest ih =>
    intro h hn
    have ha := h a (List.mem_cons_self a rest)
    have hrest := ih (fun b hb => h b (List.mem_cons_of_mem a hb))
      (fun b hb => hn b (List.mem_cons_of_mem a hb))
    cases a with
    | obj fs =>
      by_cases hm : dir_matches (.obj fs) = true
      · have hkey := hn (.obj fs) (List.mem_cons_self _ rest) hm
        simp only [hasKeyB] at hkey
        obtain ⟨x, hx⟩ := objLookup_isSome_of_any fs "name" hkey
        have hm2 := hm
        simp only [dir_matches, jGetTotal] at hm2
        simp [build_directors, pyGet0, pyGetD, hm2, pySubS, hx, hrest,
          List.filter_cons, hm, dir_name_of, jGetTotal]
      · have hm2 : (jvalEqStr ((objLookup fs "job").getD .null) "Director"
            || jvalEqStr ((objLookup fs "job").getD .null) "Creator") = false := by
          have := hm
          simp only [dir_matches, jGetTotal] at this
          simpa using this
        simp [build_directors, pyGet0, pyGetD, hm2, hrest, List.filter_cons, hm]
    | null => simp [isObjB] at ha
    | bool b => simp [isObjB] at ha
    | num n => simp [isObjB] at ha
    | str s => simp [isObjB] at ha
    | arr xs => simp [isObjB] at ha

/-- Happy path of `_search_tmdb`: when every step succeeds with the
given intermediate values, the function returns the record assembled
from them (field for field as in the source's dict literal). -/
theorem search_tmdb_ok_of_steps (env : TmdbEnv) (pd t : String) (y : Option Int) (mt : String)
    (sr res r0 rid di pp : JVal) (lpp : Option String) (crD castV cast5 : JVal)
    (castI castL : List JVal) (crewV : JVal) (crewI dirL : List JVal)
    (rtv : JVal) (ys : String) (ids titleV origV ovV genV : JVal)
    (genI genL : List JVal) (ratV : JVal)
    (h1 : env.searchResp = .ok sr)
    (h2 : pyGetD sr "results" (.arr []) = .ok res)
    (h3 : jTruthy res = true)
    (h4 : pySub0 res = .ok r0)
    (h5 : pySubS r0 "id" = .ok rid)
    (h6 : env.detailsResp = .ok di)
    (h7 : pyGet0 di "poster_path" = .ok pp)
    (h8 : poster_step env pd rid pp = .ok lpp)
    (h9 : pyGetD di "credits" (.obj []) = .ok crD)
    (h10 : pyGetD crD "cast" (.arr []) = .ok castV)
    (h11 : pySlice castV 5 = .ok cast5)
    (h12 : pyIter cast5 = .ok castI)
    (h13 : build_cast_list castI = .ok castL)
    (h14 : pyGetD crD "crew" (.arr []) = .ok crewV)
    (h15 : pyIter crewV = .ok crewI)
    (h16 : build_directors crewI = .ok dirL)
    (h17 : runtime_step di mt = .ok rtv)
    (h18 : year_step di mt y = .ok ys)
    (h19 : pySubS di "id" = .ok ids)
    (h20 : pyGetD di (if mt == "movie" then "title" else "name") (.str t) = .ok titleV)
    (h21 : pyGetD di (if mt == "movie" then "original_title" else "original_name") (.str "") = .ok origV)
    (h22 : pyGetD di "overview" (.str "") = .ok ovV)
    (h23 : pyGetD di "genres" (.arr []) = .ok genV)
    (h24 : pyIter genV = .ok genI)
    (h25 : genI.mapM (fun g => pySubS g "name") = .ok genL)
    (h26 : pyGetD di "vote_average" (.num 0) = .ok ratV) :
    search_tmdb env pd t y mt
      = .ok (some ⟨ids, titleV, origV, ys, ovV, lpp, genL, ratV, mt, dirL, castL, rtv⟩) := by
  simp only [search_tmdb, search_tmdb_body, h1, h2, h3, h4, h5, h6, h7, h8, h9, h10,
    h11, h12, h13, h14, h15, h16, h17, h18, h19, h20, h21, h22, h23, h24, h25, h26,
    liftReq, except_bind_ok, except_bind_err, eq_self_iff_true, if_true, if_false,
    Bool.true_eq_false, Bool.false_eq_true]

/-- A search that succeeds with one result carrying an id, a detail
response whose credits hold a crew entry with job `"Director"` but no
`name` field. -/
def c2_crew_env : TmdbEnv :=
  ⟨.ok (.obj [("results", .arr [.obj [("id", .num 1)]])]),
   .ok (.obj [("id", .num 1),
              ("credits", .obj [("crew", .arr [.obj [("job", .str "Director")]])])]),
   .ok ()⟩

/-- A search that succeeds, but a detail response without an `id`
field. -/
def c2_noid_env : TmdbEnv :=
  ⟨.ok (.obj [("results", .arr [.obj [("id", .num 1)]])]),
   .ok (.obj [("credits", .obj [])]),
   .ok ()⟩

/-- C2 counterexample: the resolver *does* raise to its caller on
malformed catalog data — exactly the cases the claim lists.  A crew
entry with job `"Director"` but no `name` makes `person["name"]`
(line 204) raise `KeyError`, and a detail response without an `id`
makes `detailed_info["id"]` (line 230) raise `KeyError`: only
`requests.RequestException` is caught, so both propagate instead of
returning absent. -/
theorem c2_counterexample :
    search_tmdb c2_crew_env "p" "X" none "movie" = .error .keyError ∧
    search_tmdb c2_noid_env "p" "X" none "movie" = .error .keyError := by
  exact ⟨rfl, rfl⟩

/-- C2 amended: the resolver fails soft — returns absent without
raising — on the network and not-found conditions (a transport error
on the search request; an empty or falsy results list; a transport
error on the detail request once a result with an id was selected),
because those surface as `requests.RequestException` or as the
explicit empty-results return.  Malformed fields read by direct
subscripting (a matching crew entry without a name, a detail response
without an id, a genre entry without a name) are *not* covered: they
raise `KeyError` to the caller. -/
theorem c2_resolve_soft_fail_limits (env : TmdbEnv) (pd t : String)
    (y : Option Int) (mt : String) :
    (env.searchResp = .error () → search_tmdb env pd t y mt = .ok none) ∧
    (∀ sr res : JVal, env.searchResp = .ok sr →
      pyGetD sr "results" (.arr []) = .ok res → jTruthy res = false →
      search_tmdb env pd t y mt = .ok none) ∧
    (∀ sr res r0 i : JVal, env.searchResp = .ok sr →
      pyGetD sr "results" (.arr []) = .ok res → jTruthy res = true →
      pySub0 res = .ok r0 → pySubS r0 "id" = .ok i → env.detailsResp = .error () →
      search_tmdb env pd t y mt = .ok none) := by
  refine ⟨?_, ?_, ?_⟩
  · intro h
    simp only [search_tmdb, search_tmdb_body, h, liftReq, except_bind_err]
  · intro sr res h1 h2 h3
    simp only [search_tmdb, search_tmdb_body, h1, h2, h3, liftReq, except_bind_ok,
      except_bind_err, eq_self_iff_true, if_true, if_false, Bool.true_eq_false,
      Bool.false_eq_true]
  · intro sr res r0 i h1 h2 h3 h4 h5 h6
    simp only [search_tmdb, search_tmdb_body, h1, h2, h3, h4, h5, h6, liftReq,
      except_bind_ok, except_bind_err, eq_self_iff_true, if_true, if_false,
      Bool.true_eq_false, Bool.false_eq_true]

/-- Witness for C2's amended theorem: the three soft-fail conditions at
concrete environments — search transport error, empty results, detail
transport error — each yield `.ok none` (absent, no exception). -/
theorem c2_resolve_soft_fail_limits_witness :
    search_tmdb ⟨.error (), .ok .null, .ok ()⟩ "p" "X" none "movie" = .ok none ∧
    search_tmdb ⟨.ok (.obj [("results", .arr [])]), .ok .null, .ok ()⟩ "p" "X" none "movie"
      = .ok none ∧
    search_tmdb ⟨.ok (.obj [("results", .arr [.obj [("id", .num 1)]])]), .error (), .ok ()⟩
      "p" "X" none "movie" = .ok none :=
  ⟨(c2_resolve_soft_fail_limits ⟨.error (), .ok .null, .ok ()⟩ "p" "X" none "movie").1 rfl,
   (c2_resolve_soft_fail_limits ⟨.ok (.obj [("results", .arr [])]), .ok .null, .ok ()⟩
      "p" "X" none "movie").2.1 (.obj [("results", .arr [])]) (.arr []) rfl rfl rfl,
   (c2_resolve_soft_fail_limits ⟨.ok (.obj [("results", .arr [.obj [("id", .num 1)]])]),
      .error (), .ok ()⟩ "p" "X" none "movie").2.2
      (.obj [("results", .arr [.obj [("id", .num 1)]])]) (.arr [.obj [("id", .num 1)]])
      (.obj [("id", .num 1)]) (.num 1) rfl rfl rfl rfl rfl rfl⟩

/-- Search and detail succeed, the detail response carries a poster
reference, and the poster image download fails with a transport
error. -/
def c3_fail_env : TmdbEnv :=
  ⟨.ok (.obj [("results", .arr [.obj [("id", .num 7)]])]),
   .ok (.obj [("id", .num 7), ("poster_path", .str "/p.jpg")]),
   .error ()⟩

/-- The same responses with a successful poster download. -/
def c3_ok_env : TmdbEnv :=
  ⟨.ok (.obj [("results", .arr [.obj [("id", .num 7)]])]),
   .ok (.obj [("id", .num 7), ("poster_path", .str "/p.jpg")]),
   .ok ()⟩

/-- The record produced when the download succeeds. -/
def c3_ok_rec : MetadataRec :=
  ⟨.num 7, .str "X", .str "", "2000", .str "", some "posters/7.jpg",
   [], .num 0, "movie", [], [], .num 0⟩

/-- C3 counterexample: with search and detail succeeded and a poster
reference present, a failed poster download makes the *whole*
resolution return absent — not a record without a local poster.  The
download sits inside the `try` whose `except requests.RequestException`
returns `None` (lines 183-184, 247-249).  With the identical responses
and a successful download, the same call produces a record (with the
poster), isolating the divergence to the download failure. -/
theorem c3_counterexample :
    search_tmdb c3_fail_env "posters" "X" (some 2000) "movie" = .ok none ∧
    search_tmdb c3_ok_env "posters" "X" (some 2000) "movie" = .ok (some c3_ok_rec) ∧
    c3_ok_rec.poster_path = some "posters/7.jpg" := by
  exact ⟨rfl, rfl, rfl⟩

/-- C3 amended: when the detail response carries a truthy poster
reference and the poster image download fails with a transport error,
the entire resolution fails and returns absent (no record at all); a
record without a local poster results only when the response carries
no poster reference. -/
theorem c3_poster_failure_fails_resolution (env : TmdbEnv) (pd t : String)
    (y : Option Int) (mt : String) (sr res r0 rid di pp : JVal)
    (h1 : env.searchResp = .ok sr)
    (h2 : pyGetD sr "results" (.arr []) = .ok res)
    (h3 : jTruthy res = true)
    (h4 : pySub0 res = .ok r0)
    (h5 : pySubS r0 "id" = .ok rid)
    (h6 : env.detailsResp = .ok di)
    (h7 : pyGet0 di "poster_path" = .ok pp)
    (h8 : jTruthy pp = true)
    (h9 : env.posterResp = .error ()) :
    search_tmdb env pd t y mt = .ok none := by
  have hps : poster_step env pd rid pp = .error .reqError := by
    simp only [poster_step, h8, h9, liftReq, if_true]
  simp only [search_tmdb, search_tmdb_body, h1, h2, h3, h4, h5, h6, h7, hps, liftReq,
    except_bind_ok, except_bind_err, eq_self_iff_true, if_true, if_false,
    Bool.true_eq_false, Bool.false_eq_true]

/-- Witness for C3's amended theorem at the concrete failing
environment. -/
theorem c3_poster_failure_fails_resolution_witness :
    search_tmdb c3_fail_env "posters" "Y" none "movie" = .ok none :=
  c3_poster_failure_fails_resolution c3_fail_env "posters" "Y" none "movie"
    (.obj [("results", .arr [.obj [("id", .num 7)]])])
    (.arr [.obj [("id", .num 7)]]) (.obj [("id", .num 7)]) (.num 7)
    (.obj [("id", .num 7), ("poster_path", .str "/p.jpg")]) (.str "/p.jpg")
    rfl rfl rfl rfl rfl rfl rfl rfl rfl

/-- The cast rule as the specification words it: the first 5 entries of
the credits cast list that carry both a name and a character field —
entries lacking a field are skipped and do *not* count toward the cap
(filter first, cap after). -/
def cast_rule_spec (cast : List JVal) : List JVal :=
  ((cast.filter cast_has_both).take 5).map cast_entry_of

/-- Six cast entries; the first lacks a `character` field, the other
five carry both fields. -/
def c5_cex_cast : List JVal :=
  [.obj [("name", .str "A0")],
   .obj [("name", .str "A1"), ("character", .str "C1")],
   .obj [("name", .str "A2"), ("character", .str "C2")],
   .obj [("name", .str "A3"), ("character", .str "C3")],
   .obj [("name", .str "A4"), ("character", .str "C4")],
   .obj [("name", .str "A5"), ("character", .str "C5")]]

def c5_cex_env : TmdbEnv :=
  ⟨.ok (.obj [("results", .arr [.obj [("id", .num 9)]])]),
   .ok (.obj [("id", .num 9), ("credits", .obj [("cast", .arr c5_cex_cast)])]),
   .ok ()⟩

/-- The record the source builds on `c5_cex_env`: only four cast
entries survive, because the cap is applied *before* the filter
(`cast[:5]` at line 192 keeps entries 0-4, then entry 0 is dropped). -/
def c5_model_rec : MetadataRec :=
  ⟨.num 9, .str "T", .str "", "2021", .str "", none, [], .num 0, "movie", [],
   [.obj [("name", .str "A1"), ("character", .str "C1")],
    .obj [("name", .str "A2"), ("character", .str "C2")],
    .obj [("name", .str "A3"), ("character", .str "C3")],
    .obj [("name", .str "A4"), ("character", .str "C4")]],
   .num 0⟩

/-- C5 counterexample: on a cast list of six entries whose first lacks
a `character`, the record's cast has 4 entries, while the claim's rule
(first 5 entries carrying both fields, skipped entries not counting
toward the cap) yields 5 — the sixth entry should have been included. -/
theorem c5_counterexample :
    search_tmdb c5_cex_env "p" "T" (some 2021) "movie" = .ok (some c5_model_rec) ∧
    c5_model_rec.cast.length = 4 ∧
    (cast_rule_spec c5_cex_cast).length = 5 := by
  exact ⟨rfl, rfl, rfl⟩

/-- C5 amended: the record's cast field equals the entries *among the
first 5* of the credits cast list that carry both a name and a
character field, in catalog order — the cap of 5 is applied before the
filter, so entries lacking a field still count toward it.  Stated for
every resolution whose steps succeed and whose cast entries are
objects. -/
theorem c5_cast_cap_before_filter (env : TmdbEnv) (pd t : String) (y : Option Int)
    (mt : String) (sr res r0 rid di pp : JVal) (lpp : Option String) (crD : JVal)
    (castL : List JVal) (crewV : JVal) (crewI dirL : List JVal) (rtv : JVal)
    (ys : String) (ids titleV origV ovV genV : JVal) (genI genL : List JVal) (ratV : JVal)
    (h1 : env.searchResp = .ok sr)
    (h2 : pyGetD sr "results" (.arr []) = .ok res)
    (h3 : jTruthy res = true)
    (h4 : pySub0 res = .ok r0)
    (h5 : pySubS r0 "id" = .ok rid)
    (h6 : env.detailsResp = .ok di)
    (h7 : pyGet0 di "poster_path" = .ok pp)
    (h8 : poster_step env pd rid pp = .ok lpp)
    (h9 : pyGetD di "credits" (.obj []) = .ok crD)
    (h10 : pyGetD crD "cast" (.arr []) = .ok (.arr castL))
    (hobj : ∀ a ∈ castL, isObjB a = true)
    (h14 : pyGetD crD "crew" (.arr []) = .ok crewV)
    (h15 : pyIter crewV = .ok crewI)
    (h16 : build_directors crewI = .ok dirL)
    (h17 : runtime_step di mt = .ok rtv)
    (h18 : year_step di mt y = .ok ys)
    (h19 : pySubS di "id" = .ok ids)
    (h20 : pyGetD di (if mt == "movie" then "title" else "name") (.str t) = .ok titleV)
    (h21 : pyGetD di (if mt == "movie" then "original_title" else "original_name") (.str "") = .ok origV)
    (h22 : pyGetD di "overview" (.str "") = .ok ovV)
    (h23 : pyGetD di "genres" (.arr []) = .ok genV)
    (h24 : pyIter genV = .ok genI)
    (h25 : genI.mapM (fun g => pySubS g "name") = .ok genL)
    (h26 : pyGetD di "vote_average" (.num 0) = .ok ratV) :
    search_tmdb env pd t y mt
      = .ok (some ⟨ids, titleV, origV, ys, ovV, lpp, genL, ratV, mt, dirL,
          ((castL.take 5).filter cast_has_both).map cast_entry_of, rtv⟩) := by
  refine search_tmdb_ok_of_steps env pd t y mt sr res r0 rid di pp lpp crD
    (.arr castL) (.arr (castL.take 5)) (castL.take 5)
    (((castL.take 5).filter cast_has_both).map cast_entry_of)
    crewV crewI dirL rtv ys ids titleV origV ovV genV genI genL ratV
    h1 h2 h3 h4 h5 h6 h7 h8 h9 h10 ?_ ?_ ?_ h14 h15 h16 h17 h18 h19 h20 h21 h22
    h23 h24 h25 h26
  · simp [pySlice]
  · rfl
  · exact build_cast_list_eq (castL.take 5)
      (fun a ha => hobj a (List.take_subset 5 castL ha))

/-- Witness for C5's amended theorem at the six-entry cast input. -/
theorem c5_cast_cap_before_filter_witness :
    search_tmdb c5_cex_env "p" "T" (some 2021) "movie"
      = .ok (some ⟨.num 9, .str "T", .str "", "2021", .str "", none, [], .num 0,
          "movie", [],
          ((c5_cex_cast.take 5).filter cast_has_both).map cast_entry_of, .num 0⟩) :=
  c5_cast_cap_before_filter c5_cex_env "p" "T" (some 2021) "movie"
    (.obj [("results", .arr [.obj [("id", .num 9)]])])
    (.arr [.obj [("id", .num 9)]]) (.obj [("id", .num 9)]) (.num 9)
    (.obj [("id", .num 9), ("credits", .obj [("cast", .arr c5_cex_cast)])])
    .null none (.obj [("cast", .arr c5_cex_cast)]) c5_cex_cast
    (.arr []) [] [] (.num 0) "2021" (.num 9) (.str "T") (.str "") (.str "")
    (.arr []) [] [] (.num 0)
    rfl rfl rfl rfl rfl rfl rfl rfl rfl rfl (by decide)
    rfl rfl rfl rfl rfl rfl rfl rfl rfl rfl rfl rfl rfl

/-- The directors rule as the specification words it: crew entries
whose job is `"Director"` for movies, `"Creator"` for series — only
the kind-appropriate job title. -/
def directors_rule_spec (mediaType : String) (crew : List JVal) : List JVal :=
  (crew.filter (fun p => jvalEqStr (jGetTotal p "job")
    (if mediaType == "movie" then "Director" else "Creator"))).map dir_name_of

/-- One crew entry with job `"Creator"` on a movie lookup. -/
def c6_cex_crew : List JVal :=
  [.obj [("job", .str "Creator"), ("name", .str "X")]]

def c6_cex_env : TmdbEnv :=
  ⟨.ok (.obj [("results", .arr [.obj [("id", .num 3)]])]),
   .ok (.obj [("id", .num 3), ("credits", .obj [("crew", .arr c6_cex_crew)])]),
   .ok ()⟩

/-- The record the source builds on `c6_cex_env`: the `"Creator"` entry
is included in the directors of a *movie* record. -/
def c6_model_rec : MetadataRec :=
  ⟨.num 3, .str "T", .str "", "2021", .str "", none, [], .num 0, "movie",
   [.str "X"], [], .num 0⟩

/-- C6 counterexample: on a movie lookup, a crew entry with job
`"Creator"` is included in the record's directors (line 203 tests
`== "Director" or == "Creator"` with no reference to the media type),
while the claim's kind-dependent rule excludes it. -/
theorem c6_counterexample :
    search_tmdb c6_cex_env "p" "T" (some 2021) "movie" = .ok (some c6_model_rec) ∧
    c6_model_rec.directors = [.str "X"] ∧
    directors_rule_spec "movie" c6_cex_crew = [] := by
  exact ⟨rfl, rfl, rfl⟩

/-- C6 amended: for every media kind, the record's directors field
contains exactly the names of the crew entries whose job is
`"Director"` *or* `"Creator"`, in catalog order — the job test does
not depend on the query's kind.  Stated for every resolution whose
steps succeed, whose crew entries are objects, and whose matching
entries carry a name. -/
theorem c6_directors_ignore_kind (env : TmdbEnv) (pd t : String) (y : Option Int)
    (mt : String) (sr res r0 rid di pp : JVal) (lpp : Option String) (crD castV : JVal)
    (castI castL : List JVal) (crewL : List JVal) (rtv : JVal)
    (ys : String) (ids titleV origV ovV genV : JVal) (genI genL : List JVal) (ratV : JVal)
    (h1 : env.searchResp = .ok sr)
    (h2 : pyGetD sr "results" (.arr []) = .ok res)
    (h3 : jTruthy res = true)
    (h4 : pySub0 res = .ok r0)
    (h5 : pySubS r0 "id" = .ok rid)
    (h6 : env.detailsResp = .ok di)
    (h7 : pyGet0 di "poster_path" = .ok pp)
    (h8 : poster_step env pd rid pp = .ok lpp)
    (h9 : pyGetD di "credits" (.obj []) = .ok crD)
    (h10 : pyGetD crD "cast" (.arr []) = .ok castV)
    (h11 : pySlice castV 5 = .ok (.arr castI))
    (h12 : pyIter (.arr castI) = .ok castI)
    (h13 : build_cast_list castI = .ok castL)
    (h14 : pyGetD crD "crew" (.arr []) = .ok (.arr crewL))
    (hobj : ∀ p ∈ crewL, isObjB p = true)
    (hname : ∀ p ∈ crewL, dir_matches p = true → hasKeyB p "name" = true)
    (h17 : runtime_step di mt = .ok rtv)
    (h18 : year_step di mt y = .ok ys)
    (h19 : pySubS di "id" = .ok ids)
    (h20 : pyGetD di (if mt == "movie" then "title" else "name") (.str t) = .ok titleV)
    (h21 : pyGetD di (if mt == "movie" then "original_title" else "original_name") (.str "") = .ok origV)
    (h22 : pyGetD di "overview" (.str "") = .ok ovV)
    (h23 : pyGetD di "genres" (.arr []) = .ok genV)
    (h24 : pyIter genV = .ok genI)
    (h25 : genI.mapM (fun g => pySubS g "name") = .ok genL)
    (h26 : pyGetD di "vote_average" (.num 0) = .ok ratV) :
    search_tmdb env pd t y mt
      = .ok (some ⟨ids, titleV, origV, ys, ovV, lpp, genL, ratV, mt,
          (crewL.filter dir_matches).map dir_name_of, castL, rtv⟩) := by
  refine search_tmdb_ok_of_steps env pd t y mt sr res r0 rid di pp lpp crD
    castV (.arr castI) castI castL (.arr crewL) crewL
    ((crewL.filter dir_matches).map dir_name_of) rtv ys ids titleV origV ovV genV
    genI genL ratV
    h1 h2 h3 h4 h5 h6 h7 h8 h9 h10 h11 h12 h13 h14 ?_ ?_ h17 h18 h19 h20 h21 h22
    h23 h24 h25 h26
  · rfl
  · exact build_directors_eq crewL hobj hname

/-- Witness for C6's amended theorem at the `"Creator"`-on-a-movie
input. -/
theorem c6_directors_ignore_kind_witness :
    search_tmdb c6_cex_env "p" "T" (some 2021) "movie"
      = .ok (some ⟨.num 3, .str "T", .str "", "2021", .str "", none, [], .num 0,
          "movie", (c6_cex_crew.filter dir_matches).map dir_name_of, [], .num 0⟩) :=
  c6_directors_ignore_kind c6_cex_env "p" "T" (some 2021) "movie"
    (.obj [("results", .arr [.obj [("id", .num 3)]])])
    (.arr [.obj [("id", .num 3)]]) (.obj [("id", .num 3)]) (.num 3)
    (.obj [("id", .num 3), ("credits", .obj [("crew", .arr c6_cex_crew)])])
    .null none (.obj [("crew", .arr c6_cex_crew)]) (.arr []) [] [] c6_cex_crew
    (.num 0) "2021" (.num 3) (.str "T") (.str "") (.str "") (.arr []) [] [] (.num 0)
    rfl rfl rfl rfl rfl rfl rfl rfl rfl rfl rfl rfl rfl rfl (by decide) (by decide)
    rfl rfl rfl rfl rfl rfl rfl rfl rfl rfl
